import Mathlib

/-!
Verification of the check-execution pipeline of `pandera`
(`src/pandera/backends/pandas/checks.py`, class `PandasCheckBackend`).

The embedding models pandas containers as plain lists carrying a default
positional (range) row index:

* a cell value is `Val` (`int`, `str`, or `na`, the missing-value marker);
* a `pd.Series` is a `List Val`;
* a `pd.DataFrame` is a `Frame`, an ordered list of (column name, column) pairs
  sharing the positional row index.

Fallible Python code is rendered with `Except PyErr`; a raised exception is an
`Except.error`.  The multimethod dispatch tables of `preprocess`, `apply` and
`postprocess` become pattern matches over the constructors of the argument
types, in the registration order of the source.
-/

namespace Pandera

/-- A pandas cell value.  `na` models a missing value (NaN/None). -/
inductive Val where
  | int (n : Int)
  | str (s : String)
  | na
deriving DecidableEq, Repr

/-- `pd.isna` on one value. -/
def Val.isna : Val → Bool
  | .na => true
  | _ => false

/-- A `pd.Series` with the default positional index. -/
abbrev Series := List Val

/-- A `pd.DataFrame` with the default positional index: an ordered association
of column name to column, all columns sharing the row index. -/
structure Frame where
  cols : List (String × List Val)
deriving DecidableEq, Repr

/-- The column names of a frame, in order. -/
def Frame.colNames (f : Frame) : List String := f.cols.map Prod.fst

/-- The number of rows (length of the shared index; read off the first column). -/
def Frame.nrows (f : Frame) : Nat :=
  match f.cols with
  | [] => 0
  | c :: _ => c.2.length

/-- `df.shape`: (number of rows, number of columns). -/
def Frame.shape (f : Frame) : Nat × Nat := (f.nrows, f.cols.length)

/-- Well-formedness: every column has the length of the shared row index. -/
def Frame.WF (f : Frame) : Prop := ∀ c ∈ f.cols, c.2.length = f.nrows

/-- Column projection `df[key]` (first column with that name, if any). -/
def Frame.getCol (f : Frame) (key : String) : Option (List Val) :=
  (f.cols.find? (fun c => c.1 == key)).map Prod.snd

/-- Row `i` of the frame as a (column name, value) record, as passed to an
element-wise check function by `df.apply(fn, axis=1)`. -/
def Frame.row (f : Frame) (i : Nat) : List (String × Val) :=
  f.cols.map (fun c => (c.1, (c.2.get? i).getD .na))

/-- All rows of the frame, in index order. -/
def Frame.rows (f : Frame) : List (List (String × Val)) :=
  (List.range f.nrows).map f.row

/-- `df.isna().any(axis="columns")`: per row, whether any column is missing. -/
def Frame.isnaAnyRow (f : Frame) : List Bool :=
  (List.range f.nrows).map (fun i => f.cols.any (fun c => ((c.2.get? i).getD .na).isna))

/-- Keep the rows of the frame selected by a positional boolean mask. -/
def Frame.selectRows (f : Frame) (mask : List Bool) : Frame :=
  ⟨f.cols.map (fun c =>
    (c.1, (c.2.zip mask).filterMap (fun p => if p.2 then some p.1 else none)))⟩

/-- `df.unstack()`: flatten the frame column-major into a Series indexed by the
MultiIndex (column name, row position). -/
def Frame.unstack (f : Frame) : List ((String × Nat) × Val) :=
  f.cols.flatMap (fun c =>
    (List.range c.2.length).map (fun i => ((c.1, i), (c.2.get? i).getD .na)))

/-- A boolean `pd.DataFrame` (the per-cell output of a vectorized check). -/
structure BFrame where
  cols : List (String × List Bool)
deriving DecidableEq, Repr

/-- Column names of a boolean frame. -/
def BFrame.colNames (g : BFrame) : List String := g.cols.map Prod.fst

/-- Number of rows of a boolean frame. -/
def BFrame.nrows (g : BFrame) : Nat :=
  match g.cols with
  | [] => 0
  | c :: _ => c.2.length

/-- `shape` of a boolean frame. -/
def BFrame.shape (g : BFrame) : Nat × Nat := (g.nrows, g.cols.length)

/-- Well-formedness of a boolean frame. -/
def BFrame.WF (g : BFrame) : Prop := ∀ c ∈ g.cols, c.2.length = g.nrows

/-- `df.unstack()` for a boolean frame. -/
def BFrame.unstack (g : BFrame) : List ((String × Nat) × Bool) :=
  g.cols.flatMap (fun c =>
    (List.range c.2.length).map (fun i => ((c.1, i), (c.2.get? i).getD false)))

/-- A check object handed to the backend: a Series or a DataFrame. -/
inductive PandasObj where
  | series (s : Series)
  | frame (f : Frame)
deriving DecidableEq, Repr

/-- A Python exception raised by the pipeline.  `groupsKeyError` is the
`KeyError` raised by `_format_groupby_input`; it carries the structure of the
message `"groups {invalid} provided in groups argument not a valid group key.
Valid group keys: {valid}"` instead of the formatted text.  `typeError`
carries the exception message.  `dispatchError` is the `multimethod`
DispatchError for an argument combination with no registered method. -/
inductive PyErr where
  | keyError (key : String)
  | groupsKeyError (invalid : List Val) (valid : List Val)
  | attributeError (name : String)
  | typeError (msg : String)
  | assertionError
  | indexingError
  | dispatchError
deriving DecidableEq, Repr

/-- Whether an exception is a Python `TypeError`. -/
def PyErr.isTypeError : PyErr → Bool
  | .typeError _ => true
  | _ => false

/-- The dict-of-groups produced by iterating a pandas groupby object:
(group key, sub-Series or sub-DataFrame) pairs. -/
abbrev GroupbyObject := List (Val × PandasObj)

/-- The raw result of calling the check function on a container: a boolean
scalar, a per-row boolean Series, a per-cell boolean DataFrame, or a value of
some other Python type (carried by the name of that type). -/
inductive CheckOutput where
  | scalar (b : Bool)
  | series (s : List Bool)
  | frame (g : BFrame)
  | other (tyName : String)
deriving DecidableEq, Repr

/-- `type(check_output)` rendered as the Python type name. -/
def CheckOutput.typeName : CheckOutput → String
  | .scalar _ => "bool"
  | .series _ => "Series"
  | .frame _ => "DataFrame"
  | .other t => t

/-- The `groupby` configuration of a check: a column name, or a user grouping
function (modelled from the source branch `self.check.groupby(check_obj)`). -/
inductive GroupbySpec where
  | byName (name : String)
  | byFn (fn : PandasObj → GroupbyObject)

/-- The check configuration consumed by the backend
(`pandera.core.base.checks.BaseCheck`).  The single dynamically typed Python
callable `_check_fn` (with its `_check_kwargs` already bound by
`functools.partial` in `__init__`) is rendered as its three behaviours:
on one scalar element (`Series.map`), on one row record
(`DataFrame.apply(axis=1)`), and on a whole container (vectorized call). -/
structure BaseCheck where
  check_fn_elem : Val → Bool
  check_fn_row : List (String × Val) → Bool
  check_fn_vec : PandasObj → CheckOutput
  element_wise : Bool
  groupby : Option GroupbySpec
  groups : Option (List Val)
  ignore_na : Bool
  n_failure_cases : Option Nat

/-- The attribute names bound on the backend instance by
`PandasCheckBackend.__init__` (lines 20-22): `self.check` and `self.check_fn`
only. -/
def instanceAttrs : List String := ["check", "check_fn"]

/-- The attribute names bound on the classes `PandasCheckBackend` and
`BaseCheckBackend` (method definitions). -/
def classAttrs : List String :=
  ["__init__", "groupby", "query", "aggregate", "_format_groupby_input",
   "preprocess", "apply", "postprocess", "__call__", "statistics", "strategy"]

/-- The attribute read `self.groups` performed by `preprocess` (lines 85, 96).
Python attribute lookup succeeds only when the name is bound on the instance
or on the class; neither `__init__` nor either class binds `groups`, so the
lookup raises `AttributeError`.  The success branch carries no value because
no assignment exists to supply one; it is dead code guarded by the
(decidably false) membership test. -/
def selfGroups : Except PyErr (Option (List Val)) :=
  if "groups" ∈ instanceAttrs ++ classAttrs then .ok none
  else .error (.attributeError "groups")

/-- `PandasCheckBackend._format_groupby_input` (lines 40-66): restrict a
groupby dict to an allow-list of group keys, raising a `KeyError` naming the
invalid keys and the valid key set when any requested key is absent.
(The source collects `group_keys` as a Python `set`; group keys of a pandas
groupby are already distinct, so the key list stands in for the set.) -/
def format_groupby_input (groupby_obj : GroupbyObject) (groups : Option (List Val)) :
    Except PyErr GroupbyObject :=
  match groups with
  | none => .ok groupby_obj
  | some gs =>
      let group_keys := groupby_obj.map Prod.fst
      let invalid_groups := gs.filter (fun g => ¬ g ∈ group_keys)
      if invalid_groups.isEmpty then
        .ok (groupby_obj.filter (fun p => p.1 ∈ gs))
      else
        .error (.groupsKeyError invalid_groups group_keys)

/-- Drop duplicates keeping first occurrences (`DataFrame.drop_duplicates`),
with an accumulator of already-seen elements. -/
def dropDupAux {α : Type _} [DecidableEq α] (seen : List α) : List α → List α
  | [] => []
  | a :: l => if a ∈ seen then dropDupAux seen l else a :: dropDupAux (a :: seen) l

/-- Drop exact duplicates keeping first occurrences. -/
def dropDup {α : Type _} [DecidableEq α] (l : List α) : List α := dropDupAux [] l

/-- `series.groupby(label)` for a Series carrying the default unnamed range
index: pandas looks the string up among the index level names and raises
`KeyError(label)` because no level has a name. -/
def seriesGroupbyLabel (_s : Series) (label : String) : Except PyErr GroupbyObject :=
  .error (.keyError label)

/-- `df.groupby(name)` (grouping a frame by one of its columns): raises
`KeyError(name)` when no such column exists; otherwise partitions the rows by
the value of that column, dropping rows whose key is missing.  (pandas also
sorts the group keys; keys are modelled in first-appearance order, which no
theorem depends on because the pipeline aborts at the `self.groups` read
before the groups are consumed.) -/
def Frame.groupbyCol (f : Frame) (name : String) : Except PyErr GroupbyObject :=
  match f.getCol name with
  | none => .error (.keyError name)
  | some keyvals =>
      let keys := dropDup (keyvals.filter (fun v => ¬ v.isna))
      .ok (keys.map (fun k => (k, .frame (f.selectRows (keyvals.map (fun v => v == k))))))

/-- `PandasCheckBackend.groupby` (lines 24-28): group the check object by the
configured column name, or hand it to the configured grouping function.
With `check.groupby = None` the method would call `None(check_obj)`; that
branch is never taken by `preprocess`. -/
def backendGroupby (check : BaseCheck) (check_obj : PandasObj) : Except PyErr GroupbyObject :=
  match check.groupby with
  | some (.byName name) =>
      match check_obj with
      | .series s => seriesGroupbyLabel s name
      | .frame f => f.groupbyCol name
  | some (.byFn fn) => .ok (fn check_obj)
  | none => .error (.typeError "NoneType object is not callable")

/-- The preprocessed container handed to `apply`: a Series, a DataFrame, or
(were it ever reachable) a dict of groups. -/
inductive PreOut where
  | series (s : Series)
  | frame (f : Frame)
  | grouped (g : GroupbyObject)
deriving DecidableEq, Repr

/-- `PandasCheckBackend.preprocess` (lines 68-96), dispatched on the runtime
types of `(check_obj, key)` exactly as the three `multimethod` registrations
are: `(Series, None)`, `(DataFrame, str)`, `(DataFrame, None)`; any other
combination has no method.  The grouped branches evaluate
`self._format_groupby_input(self.groupby(check_obj), self.groups)` with
Python's left-to-right argument order: the groupby first, then the
`self.groups` attribute read. -/
def preprocess (check : BaseCheck) (check_obj : PandasObj) (key : Option String) :
    Except PyErr PreOut :=
  match check_obj, key with
  | .series s, none => .ok (.series s)
  | .series _, some _ => .error .dispatchError
  | .frame f, some k =>
      match f.getCol k with
      | none => .error (.keyError k)
      | some col =>
          match check.groupby with
          | none => .ok (.series col)
          | some _ => do
              let gobj ← backendGroupby check (.series col)
              let gs ← selfGroups
              let fmt ← format_groupby_input gobj gs
              .ok (.grouped fmt)
  | .frame f, none =>
      match check.groupby with
      | none => .ok (.frame f)
      | some _ => do
          let gobj ← backendGroupby check (.frame f)
          let gs ← selfGroups
          let fmt ← format_groupby_input gobj gs
          .ok (.grouped fmt)

/-- `PandasCheckBackend.apply` (lines 98-109): element-wise, map the check
function over the elements (Series) or the rows (DataFrame); otherwise call
it once on the whole container.  `apply` has no method for a dict of groups. -/
def applyCheck (check : BaseCheck) (check_obj : PreOut) : Except PyErr CheckOutput :=
  match check_obj with
  | .series s =>
      .ok (if check.element_wise then .series (s.map check.check_fn_elem)
           else check.check_fn_vec (.series s))
  | .frame f =>
      .ok (if check.element_wise then .series (f.rows.map check.check_fn_row)
           else check.check_fn_vec (.frame f))
  | .grouped _ => .error .dispatchError

/-- `check_obj[~check_output]`: the elements (or rows) of the object at the
positions where the boolean output is false, in original order. -/
def untruncatedFailures {ρ : Type _} (check_obj : List ρ) (check_output : List Bool) :
    List ρ :=
  (check_obj.zip check_output).filterMap (fun p => if p.2 then none else some p.1)

/-- `groupby(keys).head(n)` on rows paired with their group key: keep, in
original order, the first `n` rows of each distinct key.  `seen` counts the
rows of each key already passed. -/
def groupbyHeadAux {κ ρ : Type _} [DecidableEq κ] (n : Nat) (seen : κ → Nat) :
    List (κ × ρ) → List ρ
  | [] => []
  | p :: rest =>
      let seen2 := fun k => if k = p.1 then seen p.1 + 1 else seen k
      if seen p.1 < n then p.2 :: groupbyHeadAux n seen2 rest
      else groupbyHeadAux n seen2 rest

/-- `groupby(keys).head(n)`: first `n` rows per distinct key, original order. -/
def groupbyHead {κ ρ : Type _} [DecidableEq κ] (l : List (κ × ρ)) (n : Nat) : List ρ :=
  groupbyHeadAux n (fun _ => 0) l

/-- `PandasCheckBackend._get_series_failure_cases` (lines 121-138), generic in
the row type exactly as the Python is duck-typed (Series values, or DataFrame
rows for the table-plus-row-output branch): filter to the failing entries,
then — when a bound is configured and there are failures — group them by the
aligned `check_output` value and keep the first `n_failure_cases` per group.
(The pandas branch of the engine special-case is taken; the pyspark/modin
branch computes the same head-per-group.) -/
def get_series_failure_cases {ρ : Type _} (check_obj : List ρ)
    (check_output : List Bool) (n_failure_cases : Option Nat) : List ρ :=
  let failure_cases := untruncatedFailures check_obj check_output
  match n_failure_cases with
  | none => failure_cases
  | some n =>
      if failure_cases.isEmpty then failure_cases
      else
        groupbyHead ((check_obj.zip check_output).filterMap
          (fun p => if p.2 then none else some (p.2, p.1))) n

/-- `check_output | check_obj.isna()` for a Series object (line 148). -/
def adjustSeriesOutput (check : BaseCheck) (s : Series) (out : List Bool) : List Bool :=
  if check.ignore_na then List.zipWith (fun a b => a || b) out (s.map Val.isna) else out

/-- `check_output | check_obj.isna().any(axis="columns")` for a DataFrame
object with per-row output (line 164). -/
def adjustFrameRowOutput (check : BaseCheck) (f : Frame) (out : List Bool) : List Bool :=
  if check.ignore_na then List.zipWith (fun a b => a || b) out f.isnaAnyRow else out

/-- `check_output | check_obj.isna()` on the unstacked object and output
(line 183); both sides carry the same (column, row) key sequence, so the
label alignment is positional. -/
def adjustCellOutput (check : BaseCheck) (objLong : List ((String × Nat) × Val))
    (outLong : List ((String × Nat) × Bool)) : List ((String × Nat) × Bool) :=
  if check.ignore_na then
    List.zipWith (fun o v => (o.1, o.2 || v.2.isna)) outLong objLong
  else outLong

/-- Lines 184-189: `check_obj[~check_output].rename("failure_case")
.rename_axis(["column", "index"]).reset_index()` — the long-form
(column, row position, value) records of the failing cells, column-major. -/
def cellFailureEntriesRaw (objLong : List ((String × Nat) × Val))
    (outLong : List ((String × Nat) × Bool)) : List (String × Nat × Val) :=
  (objLong.zip outLong).filterMap
    (fun p => if p.2.2 then none else some (p.1.1.1, (p.1.1.2, p.1.2)))

/-- The `checked_object` field of a result: the preprocessed object, or — in
the per-cell branch, which rebinds `check_obj` to its unstacked form before
building the result — the unstacked long-form object. -/
inductive CheckedObject where
  | pre (p : PreOut)
  | long (l : List ((String × Nat) × Val))
deriving DecidableEq, Repr

/-- The `check_output` field of a result: the raw boolean scalar, the per-row
boolean Series, a per-cell boolean DataFrame (expressible, though `postprocess`
never stores one), or the unstacked (MultiIndex) boolean Series stored by the
per-cell branch. -/
inductive OutputField where
  | scalar (b : Bool)
  | series (s : List Bool)
  | frame (g : BFrame)
  | longSeries (s : List ((String × Nat) × Bool))
deriving DecidableEq, Repr

/-- The logical AND-reduction of a `check_output` field (`all()`, or
`all(axis=None)` for frame-shaped output). -/
def OutputField.andReduce : OutputField → Bool
  | .scalar b => b
  | .series s => s.all id
  | .frame g => g.cols.all (fun c => c.2.all id)
  | .longSeries s => (s.map Prod.snd).all id

/-- The `failure_cases` field of a result: Python `None`, the failing Series
values, the failing DataFrame rows, or the long-form (column, row, value)
records of the per-cell branch. -/
inductive FailureCases where
  | null
  | series (vals : List Val)
  | rows (rs : List (List (String × Val)))
  | longForm (entries : List (String × Nat × Val))
deriving DecidableEq, Repr

/-- `pandera.core.base.checks.CheckResult` (the four-field named tuple). -/
structure CheckResult where
  check_output : OutputField
  check_passed : Bool
  checked_object : CheckedObject
  failure_cases : FailureCases
deriving DecidableEq, Repr

/-- `PandasCheckBackend.postprocess` (lines 111-204), dispatched like the five
`multimethod` registrations: `(Any, bool)`, `(Series, Series)`,
`(DataFrame, Series)`, `(DataFrame, DataFrame)`, and the `(Any, Any)`
fallback that raises `TypeError` naming the output's type.  The Series-output
branches require the boolean mask to align with the object's index (a
mismatched length makes `check_obj[~check_output]` unalignable, an
`IndexingError`); the per-cell branch asserts equal shapes, then aligns the
two unstacked series by their (column, row) keys — identical column-name
sequences make that positional, and differing sequences make the boolean
indexer unalignable. -/
def postprocess (check : BaseCheck) (check_obj : PreOut) (check_output : CheckOutput) :
    Except PyErr CheckResult :=
  match check_obj, check_output with
  | obj, .scalar b =>
      .ok ⟨.scalar b, b, .pre obj, .null⟩
  | .series s, .series out =>
      if s.length = out.length then
        let out2 := adjustSeriesOutput check s out
        .ok ⟨.series out2, out2.all id, .pre (.series s),
             .series (get_series_failure_cases s out2 check.n_failure_cases)⟩
      else .error .indexingError
  | .frame f, .series out =>
      if f.nrows = out.length then
        let out2 := adjustFrameRowOutput check f out
        .ok ⟨.series out2, out2.all id, .pre (.frame f),
             .rows (get_series_failure_cases f.rows out2 check.n_failure_cases)⟩
      else .error .indexingError
  | .frame f, .frame outf =>
      if f.shape = outf.shape then
        if f.colNames = outf.colNames then
          let objLong := f.unstack
          let outLong := adjustCellOutput check objLong outf.unstack
          let raw := cellFailureEntriesRaw objLong outLong
          let fc := match check.n_failure_cases with
            | none => raw
            | some n => if raw.isEmpty then raw else (dropDup raw).take n
          .ok ⟨.longSeries outLong, (outLong.map Prod.snd).all id, .long objLong,
               .longForm fc⟩
        else .error .indexingError
      else .error .assertionError
  | _, _ =>
      .error (.typeError ("output type of check_fn not recognized: "
        ++ check_output.typeName))

/-- Whether a `(check_obj, check_output)` pair falls through to the
`(Any, Any)` fallback of the `postprocess` dispatch table. -/
def dispatchFallback (check_obj : PreOut) (check_output : CheckOutput) : Bool :=
  match check_obj, check_output with
  | _, .scalar _ => false
  | .series _, .series _ => false
  | .frame _, .series _ => false
  | .frame _, .frame _ => false
  | _, _ => true

/-- `PandasCheckBackend.__call__` (lines 206-213): preprocess, apply,
postprocess. -/
def backendCall (check : BaseCheck) (check_obj : PandasObj) (key : Option String) :
    Except PyErr CheckResult := do
  let po ← preprocess check check_obj key
  let out ← applyCheck check po
  postprocess check po out

/-- Take the first `k` entries when a bound is configured (`head(k)`),
everything otherwise. -/
def optTake {α : Type _} (n : Option Nat) (l : List α) : List α :=
  match n with
  | none => l
  | some k => l.take k

/-- The boolean-output value at each failing row, in order — the key by which
`_get_series_failure_cases` stratifies the truncated sample.  Its distinct
values are the truncation partitions. -/
def failureOutputValues {ρ : Type _} (check_obj : List ρ) (check_output : List Bool) :
    List Bool :=
  (check_obj.zip check_output).filterMap (fun p => if p.2 then none else some p.2)

/-- Whether a stored `check_output` field is a per-cell boolean matrix of the
same row-by-column shape as a given table (the shape that claim C6 asserts for
the table-plus-per-cell case). -/
def OutputField.isCellMatrixOf (o : OutputField) (f : Frame) : Bool :=
  match o with
  | .frame g => if g.shape = f.shape then true else false
  | _ => false

/-- Cell failure cases as described by the specification: the long-form
(column, row, value) entries at cells whose (adjusted) output is false,
restricted to unique triples with exact duplicates removed, then truncated to
`n_failure_cases` entries. -/
def specCellFailures (check : BaseCheck) (f : Frame) (outf : BFrame) :
    List (String × Nat × Val) :=
  optTake check.n_failure_cases
    (dropDup (cellFailureEntriesRaw f.unstack (adjustCellOutput check f.unstack outf.unstack)))

/-- A trivial passing check configuration used as a concrete fixture. -/
def cBase : BaseCheck :=
  { check_fn_elem := fun _ => true
    check_fn_row := fun _ => true
    check_fn_vec := fun _ => .scalar true
    element_wise := false
    groupby := none
    groups := none
    ignore_na := false
    n_failure_cases := some 1 }

/-- `cBase` without a failure-case bound. -/
def cPlain : BaseCheck := { cBase with n_failure_cases := none }

/-- A grouped check requesting the nonexistent group key `"z"`. -/
def cGrouped : BaseCheck :=
  { cPlain with groupby := some (.byName "g"), groups := some [.str "z"] }

/-- A two-row table whose column `"g"` has the group keys `"a"` and `"b"`. -/
def frameG : Frame := ⟨[("g", [.str "a", .str "b"]), ("x", [.int 1, .int 2])]⟩

/-- The dict of groups that `frameG.groupby("g")` yields. -/
def gObjAB : GroupbyObject :=
  [(.str "a", .frame ⟨[("g", [.str "a"]), ("x", [.int 1])]⟩),
   (.str "b", .frame ⟨[("g", [.str "b"]), ("x", [.int 2])]⟩)]

/-- A one-cell table fixture. -/
def frameA1 : Frame := ⟨[("a", [.int 1])]⟩

/-- A two-row boolean output frame, shape-mismatched against `frameA1`. -/
def outA2 : BFrame := ⟨[("a", [true, true])]⟩

/-- A 2-by-2 table fixture. -/
def frameAB : Frame := ⟨[("a", [.int 1, .int 2]), ("b", [.int 3, .int 4])]⟩

/-- An all-true per-cell output for `frameAB`. -/
def outAllTrue : BFrame := ⟨[("a", [true, true]), ("b", [true, true])]⟩

/-- The result record of postprocessing a `true` scalar output of an empty
series. -/
def rScalarTrue : CheckResult := ⟨.scalar true, true, .pre (.series []), .null⟩

end Pandera

namespace Pandera

/-! ### Helper lemmas about the failure-case machinery -/

lemma keyed_map_snd {ρ : Type _} (l : List (ρ × Bool)) :
    (l.filterMap (fun p => if p.2 then none else some (p.2, p.1))).map Prod.snd
      = l.filterMap (fun p => if p.2 then none else some p.1) := by
  induction l with
  | nil => rfl
  | cons p rest ih => cases hp : p.2 <;> simp [List.filterMap_cons, hp, ih]

lemma keyed_keys_false {ρ : Type _} (l : List (ρ × Bool)) :
    ∀ q ∈ l.filterMap (fun p => if p.2 then none else some (p.2, p.1)), q.1 = false := by
  intro q hq
  rcases List.mem_filterMap.1 hq with ⟨p, _, hp⟩
  by_cases h2 : p.2 = true
  · rw [if_pos h2] at hp
    exact absurd hp (by simp)
  · rw [if_neg h2] at hp
    have hq2 : (p.2, p.1) = q := Option.some.inj hp
    rw [← hq2]
    simpa using h2

lemma groupbyHeadAux_uniform {κ ρ : Type _} [DecidableEq κ] (n : Nat) (k0 : κ) :
    ∀ (l : List (κ × ρ)) (seen : κ → Nat), (∀ p ∈ l, p.1 = k0) →
      groupbyHeadAux n seen l = (l.map Prod.snd).take (n - seen k0) := by
  intro l
  induction l with
  | nil => intro seen _; simp [groupbyHeadAux]
  | cons p rest ih =>
      intro seen hall
      have hp : p.1 = k0 := hall p (List.mem_cons_self p rest)
      have hrest : ∀ q ∈ rest, q.1 = k0 := fun q hq => hall q (List.mem_cons_of_mem _ hq)
      rw [groupbyHeadAux, hp]
      have hite : (if k0 = k0 then seen k0 + 1 else seen k0) = seen k0 + 1 := if_pos rfl
      by_cases hlt : seen k0 < n
      · rw [if_pos hlt]
        obtain ⟨m, hm⟩ : ∃ m, n - seen k0 = m + 1 := ⟨n - seen k0 - 1, by omega⟩
        rw [List.map_cons, hm, List.take_succ_cons, ih _ hrest, hite]
        have hm2 : n - (seen k0 + 1) = m := by omega
        rw [hm2]
      · rw [if_neg hlt]
        have h0 : n - seen k0 = 0 := by omega
        rw [List.map_cons, h0, List.take_zero, ih _ hrest, hite]
        have h1 : n - (seen k0 + 1) = 0 := by omega
        rw [h1, List.take_zero]

lemma groupbyHead_uniform {κ ρ : Type _} [DecidableEq κ] (l : List (κ × ρ)) (n : Nat)
    (k0 : κ) (h : ∀ p ∈ l, p.1 = k0) :
    groupbyHead l n = (l.map Prod.snd).take n := by
  rw [groupbyHead, groupbyHeadAux_uniform n k0 l _ h, Nat.sub_zero]

lemma get_series_failure_cases_none {ρ : Type _} (check_obj : List ρ)
    (check_output : List Bool) :
    get_series_failure_cases check_obj check_output none
      = untruncatedFailures check_obj check_output := rfl

lemma get_series_failure_cases_some {ρ : Type _} (check_obj : List ρ)
    (check_output : List Bool) (k : Nat) :
    get_series_failure_cases check_obj check_output (some k)
      = (untruncatedFailures check_obj check_output).take k := by
  rw [get_series_failure_cases]
  by_cases h : (untruncatedFailures check_obj check_output).isEmpty
  · rw [if_pos h]
    rw [List.isEmpty_iff] at h
    rw [h, List.take_nil]
  · rw [if_neg h]
    rw [groupbyHead_uniform _ k false (keyed_keys_false _), keyed_map_snd]
    rfl

lemma untruncatedFailures_cons {ρ : Type _} (a : ρ) (b : Bool) (l : List (ρ × Bool)) :
    (((a, b) :: l).filterMap (fun p => if p.2 then none else some p.1))
      = (if b then [] else [a]) ++ l.filterMap (fun p => if p.2 then none else some p.1) := by
  cases b <;> simp [List.filterMap_cons]

end Pandera

namespace Pandera

/-! ### Drop-duplicates lemmas -/

lemma not_mem_seen_of_mem_dropDupAux {α : Type _} [DecidableEq α] :
    ∀ (l : List α) (seen : List α) (x : α), x ∈ dropDupAux seen l → x ∉ seen := by
  intro l
  induction l with
  | nil => intro seen x hx; simp [dropDupAux] at hx
  | cons a rest ih =>
      intro seen x hx
      rw [dropDupAux] at hx
      by_cases ha : a ∈ seen
      · rw [if_pos ha] at hx
        exact ih seen x hx
      · rw [if_neg ha] at hx
        rcases List.mem_cons.1 hx with h | h
        · subst h; exact ha
        · intro hxseen
          exact (ih _ x h) (List.mem_cons_of_mem _ hxseen)

lemma dropDupAux_nodup {α : Type _} [DecidableEq α] :
    ∀ (l : List α) (seen : List α), (dropDupAux seen l).Nodup := by
  intro l
  induction l with
  | nil => intro seen; simp [dropDupAux]
  | cons a rest ih =>
      intro seen
      rw [dropDupAux]
      by_cases ha : a ∈ seen
      · rw [if_pos ha]; exact ih seen
      · rw [if_neg ha]
        refine List.nodup_cons.2 ⟨?_, ih _⟩
        intro hmem
        exact (not_mem_seen_of_mem_dropDupAux rest (a :: seen) a hmem)
          (List.mem_cons_self a seen)

lemma dropDupAux_eq_self {α : Type _} [DecidableEq α] :
    ∀ (l : List α) (seen : List α), l.Nodup → (∀ a ∈ l, a ∉ seen) →
      dropDupAux seen l = l := by
  intro l
  induction l with
  | nil => intro seen _ _; rfl
  | cons a rest ih =>
      intro seen hnd hdisj
      rw [dropDupAux, if_neg (hdisj a (List.mem_cons_self a rest))]
      congr 1
      refine ih _ (List.nodup_cons.1 hnd).2 ?_
      intro b hb
      rw [List.mem_cons]
      push_neg
      exact ⟨fun hba => (List.nodup_cons.1 hnd).1 (hba ▸ hb),
        hdisj b (List.mem_cons_of_mem _ hb)⟩

lemma dropDup_eq_self {α : Type _} [DecidableEq α] (l : List α) (h : l.Nodup) :
    dropDup l = l :=
  dropDupAux_eq_self l [] h (fun a _ => List.not_mem_nil a)

lemma dropDupAux_nil_of_seen {α : Type _} [DecidableEq α] :
    ∀ (l : List α) (seen : List α), (∀ a ∈ l, a ∈ seen) → dropDupAux seen l = [] := by
  intro l
  induction l with
  | nil => intro _ _; rfl
  | cons a rest ih =>
      intro seen hsub
      rw [dropDupAux, if_pos (hsub a (List.mem_cons_self a rest))]
      exact ih seen (fun b hb => hsub b (List.mem_cons_of_mem _ hb))

lemma dropDup_const {α : Type _} [DecidableEq α] (l : List α) (c : α)
    (hne : l ≠ []) (hall : ∀ x ∈ l, x = c) : dropDup l = [c] := by
  cases l with
  | nil => exact absurd rfl hne
  | cons a rest =>
      have ha : a = c := hall a (List.mem_cons_self a rest)
      subst ha
      rw [dropDup, dropDupAux, if_neg (List.not_mem_nil a)]
      congr 1
      refine dropDupAux_nil_of_seen rest [a] ?_
      intro b hb
      rw [hall b (List.mem_cons_of_mem _ hb)]
      exact List.mem_cons_self a []

end Pandera

namespace Pandera

/-! ### Claim theorems: C1, C2, C3 -/

/-- C1 (code-bug evidence): on a grouped invocation whose `groups` allow-list
holds the invalid key `"z"` while the computed groups are `"a"` and `"b"`, the
pipeline raises `AttributeError` for the undefined backend attribute `groups`
— not the lookup error the specification requires — while the grouping helper
`_format_groupby_input`, handed the same groups and allow-list, does produce
exactly the specified lookup error naming the invalid keys and the valid key
set.  The slip is `self.groups` (unassigned) standing for the check's
`groups` configuration. -/
theorem c1_attribute_error_preempts_groups_key_error :
    backendCall cGrouped (.frame frameG) none = .error (.attributeError "groups") ∧
    Frame.groupbyCol frameG "g" = .ok gObjAB ∧
    format_groupby_input gObjAB cGrouped.groups
      = .error (.groupsKeyError [.str "z"] [.str "a", .str "b"]) :=
  ⟨rfl, rfl, rfl⟩

/-- C2: whenever `groupby` is set, preprocessing a table — with or without a
column key — cannot succeed: the name `groups` is bound neither by the
backend's constructor nor on its classes, the `self.groups` read therefore
raises `AttributeError`, and no grouped (or any) preprocessed object is ever
produced, so the grouping/allow-list logic is unreachable. -/
theorem c2_preprocess_reads_unassigned_groups (check : BaseCheck) (f : Frame)
    (key : Option String) (gb : GroupbySpec) (h : check.groupby = some gb) :
    ("groups" ∉ instanceAttrs ∧ "groups" ∉ classAttrs) ∧
    selfGroups = .error (.attributeError "groups") ∧
    ∀ po, preprocess check (.frame f) key ≠ .ok po := by
  refine ⟨⟨by decide, by decide⟩, rfl, ?_⟩
  intro po hpo
  cases key with
  | none =>
      simp only [preprocess, h] at hpo
      cases hg : backendGroupby check (.frame f) with
      | error e => rw [hg] at hpo; exact Except.noConfusion hpo
      | ok g => rw [hg] at hpo; exact Except.noConfusion hpo
  | some k =>
      simp only [preprocess, h] at hpo
      cases hc : f.getCol k with
      | none => rw [hc] at hpo; exact Except.noConfusion hpo
      | some col =>
          rw [hc] at hpo
          simp only [] at hpo
          cases hg : backendGroupby check (.series col) with
          | error e => rw [hg] at hpo; exact Except.noConfusion hpo
          | ok g => rw [hg] at hpo; exact Except.noConfusion hpo

/-- Witness for C2 at a concrete grouped check and table. -/
theorem c2_witness : preprocess cGrouped (.frame frameG) none ≠ .ok (.frame frameG) :=
  (c2_preprocess_reads_unassigned_groups cGrouped frameG none (.byName "g") rfl).2.2
    (.frame frameG)

/-- C3: for every successful postprocess, in every output shape, the
`check_passed` field equals the logical AND-reduction of the stored
`check_output` field (after any `ignore_na` adjustment, which is already
folded into the stored output). -/
theorem c3_check_passed_is_and_reduction (check : BaseCheck) (check_obj : PreOut)
    (check_output : CheckOutput) (r : CheckResult)
    (h : postprocess check check_obj check_output = .ok r) :
    r.check_passed = r.check_output.andReduce := by
  cases check_obj <;> cases check_output <;>
    simp only [postprocess] at h <;>
    (try split at h) <;> (try split at h) <;>
    (try exact Except.noConfusion h) <;>
    (injection h with h2; subst h2; rfl)

/-- Witness for C3 at a concrete scalar-output invocation. -/
theorem c3_witness : rScalarTrue.check_passed = rScalarTrue.check_output.andReduce :=
  c3_check_passed_is_and_reduction cBase (.series []) (.scalar true) rScalarTrue rfl

end Pandera

namespace Pandera

/-! ### Claim theorems: C8, C9, C10, and the C6 counterexample -/

/-- C8: for a table object with per-cell boolean output, the failure branch of
the shape assertion is taken exactly when the object's and the output's
(rows, columns) shapes differ — a mismatch always raises `AssertionError`
(never a silent broadcast), and the `AssertionError` arises only from a
mismatch. -/
theorem c8_cell_shape_mismatch_raises (check : BaseCheck) (f : Frame) (outf : BFrame) :
    (f.shape ≠ outf.shape →
      postprocess check (.frame f) (.frame outf) = .error .assertionError) ∧
    (postprocess check (.frame f) (.frame outf) = .error .assertionError →
      f.shape ≠ outf.shape) := by
  constructor
  · intro h
    simp only [postprocess]
    rw [if_neg h]
  · intro h hshape
    simp only [postprocess] at h
    rw [if_pos hshape] at h
    split at h
    · exact Except.noConfusion h
    · injection h with h2
      exact PyErr.noConfusion h2

/-- Witness for C8 at a concrete shape mismatch (1-by-1 object, 2-by-1 output). -/
theorem c8_witness :
    postprocess cBase (.frame frameA1) (.frame outA2) = .error .assertionError :=
  (c8_cell_shape_mismatch_raises cBase frameA1 outA2).1 (by decide)

/-- C9 (counterexample): a per-cell boolean output whose shape does not match
the table matches none of the claim's recognized cases, yet postprocess raises
the shape `AssertionError`, not a type error naming the output type. -/
theorem c9_counterexample :
    postprocess cPlain (.frame frameA1) (.frame outA2) = .error .assertionError ∧
    PyErr.assertionError.isTypeError = false :=
  ⟨rfl, rfl⟩

/-- C9 (amended): dispatch is by runtime type, not shape — for every
`(object, output)` pair with no registered postprocess method (an output of
unrecognized type, or a container output of the wrong container type, e.g. a
frame output for a series object), postprocess fails with a `TypeError` whose
message names the offending output type.  Shape-mismatched outputs of
recognized types instead take the corresponding typed branch. -/
theorem c9_unrecognized_type_raises_type_error (check : BaseCheck) (check_obj : PreOut)
    (check_output : CheckOutput) (h : dispatchFallback check_obj check_output = true) :
    postprocess check check_obj check_output
      = .error (.typeError ("output type of check_fn not recognized: "
          ++ check_output.typeName)) := by
  cases check_obj <;> cases check_output <;> simp_all [dispatchFallback, postprocess]

/-- Witness for C9 at an output of unrecognized Python type `dict`. -/
theorem c9_witness :
    postprocess cBase (.series []) (.other "dict")
      = .error (.typeError ("output type of check_fn not recognized: " ++ "dict")) :=
  c9_unrecognized_type_raises_type_error cBase (.series []) (.other "dict") rfl

/-- C10: for a non-element-wise, non-grouped check whose predicate returns a
boolean scalar, the pipeline's result stores that scalar as `check_output`,
sets `check_passed` to exactly that scalar, and has no failure cases
(`failure_cases` is Python `None`). -/
theorem c10_scalar_output_result (check : BaseCheck) (check_obj : PandasObj)
    (key : Option String) (po : PreOut) (b : Bool)
    (hew : check.element_wise = false) (hgb : check.groupby = none)
    (hpre : preprocess check check_obj key = .ok po)
    (happ : applyCheck check po = .ok (.scalar b)) :
    backendCall check check_obj key = .ok ⟨.scalar b, b, .pre po, .null⟩ := by
  unfold backendCall
  rw [hpre]
  show (do
    let out ← applyCheck check po
    postprocess check po out) = _
  rw [happ]
  show postprocess check po (.scalar b) = _
  cases po <;> rfl

/-- Witness for C10 at a concrete scalar-returning check over a one-row
series. -/
theorem c10_witness :
    backendCall cBase (.series [Val.int 1]) none
      = .ok ⟨.scalar true, true, .pre (.series [Val.int 1]), .null⟩ :=
  c10_scalar_output_result cBase (.series [Val.int 1]) none (.series [Val.int 1]) true
    rfl rfl rfl rfl

/-- C6 (counterexample): for the 2-by-2 table `frameAB` with an all-true
per-cell output, the stored `check_output` is not a per-cell boolean matrix of
the table's shape — it is the column-major unstacked series of length 4
indexed by (column, row) keys. -/
theorem c6_counterexample :
    (postprocess cPlain (.frame frameAB) (.frame outAllTrue)).map
        (fun r => r.check_output.isCellMatrixOf frameAB) = .ok false ∧
    (postprocess cPlain (.frame frameAB) (.frame outAllTrue)).map
        (fun r => r.check_output)
      = .ok (.longSeries [(("a", 0), true), (("a", 1), true),
                          (("b", 0), true), (("b", 1), true)]) :=
  ⟨rfl, rfl⟩

end Pandera

namespace Pandera

/-! ### Unstack lemmas -/

lemma map_fst_zip_sublist {α β : Type _} :
    ∀ (l₁ : List α) (l₂ : List β), ((l₁.zip l₂).map Prod.fst).Sublist l₁ := by
  intro l₁
  induction l₁ with
  | nil => intro l₂; simp
  | cons a r ih =>
      intro l₂
      cases l₂ with
      | nil => simp
      | cons b r2 =>
          simp only [List.zip_cons_cons, List.map_cons]
          exact (ih r2).cons₂ a

lemma filterMap_sublist_map {α β : Type _} (f : α → Option β) (h : α → β)
    (hf : ∀ a, f a = none ∨ f a = some (h a)) :
    ∀ l : List α, (l.filterMap f).Sublist (l.map h) := by
  intro l
  induction l with
  | nil => simp
  | cons a rest ih =>
      rcases hf a with h1 | h1 <;> rw [List.map_cons, List.filterMap_cons, h1]
      · exact ih.cons _
      · exact ih.cons₂ _

lemma unstack_keys (f : Frame) :
    f.unstack.map Prod.fst
      = f.cols.flatMap (fun c => (List.range c.2.length).map (fun i => (c.1, i))) := by
  rw [Frame.unstack, List.map_flatMap]
  congr 1
  funext c
  rw [List.map_map]
  rfl

lemma bunstack_keys (g : BFrame) :
    g.unstack.map Prod.fst
      = g.cols.flatMap (fun c => (List.range c.2.length).map (fun i => (c.1, i))) := by
  rw [BFrame.unstack, List.map_flatMap]
  congr 1
  funext c
  rw [List.map_map]
  rfl

lemma unstack_keys_nodup (f : Frame) (h : f.colNames.Nodup) :
    (f.unstack.map Prod.fst).Nodup := by
  rw [unstack_keys, List.nodup_flatMap]
  constructor
  · intro c _
    refine List.Nodup.map ?_ (List.nodup_range _)
    intro i j hij
    simpa using hij
  · have hp : f.cols.Pairwise (fun a b => a.1 ≠ b.1) := by
      rw [Frame.colNames] at h
      exact List.pairwise_map.1 h
    refine hp.imp ?_
    intro a b hab x hxa hxb
    rcases List.mem_map.1 hxa with ⟨i, _, hxi⟩
    rcases List.mem_map.1 hxb with ⟨j, _, hxj⟩
    rw [← hxi] at hxj
    exact hab (congrArg Prod.fst hxj).symm

lemma cellFailureEntriesRaw_keys_sublist (objLong : List ((String × Nat) × Val))
    (outLong : List ((String × Nat) × Bool)) :
    ((cellFailureEntriesRaw objLong outLong).map (fun t => (t.1, t.2.1))).Sublist
      (objLong.map Prod.fst) := by
  rw [cellFailureEntriesRaw]
  have h1 : ((objLong.zip outLong).filterMap
      (fun p => if p.2.2 then none else some (p.1.1.1, (p.1.1.2, p.1.2)))).map
        (fun t => (t.1, t.2.1))
      = (objLong.zip outLong).filterMap (fun p => if p.2.2 then none else some p.1.1) := by
    rw [List.map_filterMap]
    congr 1
    funext p
    by_cases hp : p.2.2 = true <;> simp [hp]
  rw [h1]
  have h2 := filterMap_sublist_map
    (fun p : ((String × Nat) × Val) × ((String × Nat) × Bool) =>
      if p.2.2 then none else some p.1.1)
    (fun p => p.1.1) (fun p => by by_cases hp : p.2.2 = true <;> simp [hp])
    (objLong.zip outLong)
  refine h2.trans ?_
  have h3 := (map_fst_zip_sublist objLong outLong).map Prod.fst
  rw [List.map_map] at h3
  exact h3

lemma cellFailureEntriesRaw_nodup (f : Frame)
    (outLong : List ((String × Nat) × Bool)) (h : f.colNames.Nodup) :
    (cellFailureEntriesRaw f.unstack outLong).Nodup :=
  List.Nodup.of_map _
    (List.Nodup.sublist (cellFailureEntriesRaw_keys_sublist f.unstack outLong)
      (unstack_keys_nodup f h))

lemma sum_map_const_of {α : Type _} : ∀ (l : List α) (g : α → Nat) (n : Nat),
    (∀ a ∈ l, g a = n) → (l.map g).sum = n * l.length := by
  intro l g n
  induction l with
  | nil => intro _; simp
  | cons a rest ih =>
      intro h
      rw [List.map_cons, List.sum_cons, ih (fun b hb => h b (List.mem_cons_of_mem _ hb)),
        h a (List.mem_cons_self a rest), List.length_cons]
      ring

lemma unstack_length (f : Frame) (h : f.WF) :
    f.unstack.length = f.nrows * f.cols.length := by
  rw [Frame.unstack, List.length_flatMap]
  have hcomp : (List.length ∘ fun c : String × List Val =>
      (List.range c.2.length).map (fun i => ((c.1, i), (c.2.get? i).getD Val.na)))
      = fun c => c.2.length := by
    funext c
    simp
  rw [hcomp]
  exact sum_map_const_of f.cols _ f.nrows h

lemma keys_flatMap_eq {β γ : Type _} :
    ∀ (cs : List (String × List β)) (ds : List (String × List γ)) (n : Nat),
      cs.map Prod.fst = ds.map Prod.fst →
      (∀ c ∈ cs, c.2.length = n) → (∀ d ∈ ds, d.2.length = n) →
      cs.flatMap (fun c => (List.range c.2.length).map (fun i => (c.1, i)))
        = ds.flatMap (fun d => (List.range d.2.length).map (fun i => (d.1, i))) := by
  intro cs
  induction cs with
  | nil =>
      intro ds n h _ _
      cases ds with
      | nil => rfl
      | cons d ds2 => exact absurd h (by simp)
  | cons c cs2 ih =>
      intro ds n h hc hd
      cases ds with
      | nil => exact absurd h (by simp)
      | cons d ds2 =>
          simp only [List.map_cons, List.cons.injEq] at h
          rw [List.flatMap_cons, List.flatMap_cons]
          congr 1
          · rw [h.1, hc c (List.mem_cons_self _ _), hd d (List.mem_cons_self _ _)]
          · exact ih ds2 n h.2 (fun x hx => hc x (List.mem_cons_of_mem _ hx))
              (fun x hx => hd x (List.mem_cons_of_mem _ hx))

lemma unstack_keys_eq (f : Frame) (g : BFrame) (hwf : f.WF) (hwg : g.WF)
    (hn : f.colNames = g.colNames) (hs : f.shape = g.shape) :
    f.unstack.map Prod.fst = g.unstack.map Prod.fst := by
  have hrows : f.nrows = g.nrows := congrArg Prod.fst hs
  rw [unstack_keys, bunstack_keys]
  exact keys_flatMap_eq f.cols g.cols f.nrows hn hwf
    (fun d hd => (hwg d hd).trans hrows.symm)

lemma zipWith_adjust_keys :
    ∀ (l₁ : List ((String × Nat) × Bool)) (l₂ : List ((String × Nat) × Val)),
      l₁.length = l₂.length →
      (List.zipWith (fun o v => (o.1, o.2 || v.2.isna)) l₁ l₂).map Prod.fst
        = l₁.map Prod.fst := by
  intro l₁
  induction l₁ with
  | nil => intro l₂ _; rfl
  | cons a r ih =>
      intro l₂ h
      cases l₂ with
      | nil => exact absurd h (by simp)
      | cons b r2 =>
          simp only [List.zipWith_cons_cons, List.map_cons]
          rw [ih r2 (by simpa using h)]

lemma adjustCellOutput_keys (check : BaseCheck) (objLong : List ((String × Nat) × Val))
    (outLong : List ((String × Nat) × Bool)) (h : outLong.length = objLong.length) :
    (adjustCellOutput check objLong outLong).map Prod.fst = outLong.map Prod.fst := by
  rw [adjustCellOutput]
  by_cases hig : check.ignore_na = true
  · rw [if_pos hig]
    exact zipWith_adjust_keys outLong objLong h
  · rw [if_neg hig]

end Pandera

namespace Pandera

/-! ### Stratification-partition lemmas and claims C4, C5 -/

lemma failureOutputValues_all_false {ρ : Type _} (obj : List ρ) (out : List Bool) :
    ∀ b ∈ failureOutputValues obj out, b = false := by
  intro b hb
  rcases List.mem_filterMap.1 hb with ⟨p, _, hp⟩
  by_cases h2 : p.2 = true
  · rw [if_pos h2] at hp
    exact absurd hp (by simp)
  · rw [if_neg h2] at hp
    rw [← Option.some.inj hp]
    simpa using h2

lemma failureOutputValues_length {ρ : Type _} (obj : List ρ) (out : List Bool) :
    (failureOutputValues obj out).length = (untruncatedFailures obj out).length := by
  rw [failureOutputValues, untruncatedFailures]
  generalize obj.zip out = l
  induction l with
  | nil => rfl
  | cons p rest ih =>
      by_cases h2 : p.2 = true <;> simp [List.filterMap_cons, h2, ih]

lemma series_path_truncation {ρ : Type _} (rows : List ρ) (out2 : List Bool) (k : Nat) :
    (get_series_failure_cases rows out2 (some k)
        = (untruncatedFailures rows out2).take k) ∧
    ((untruncatedFailures rows out2).take k).length
        = min k (untruncatedFailures rows out2).length ∧
    (dropDup (failureOutputValues rows out2)).length ≤ 1 ∧
    ((dropDup (failureOutputValues rows out2)).length ≤ k →
      untruncatedFailures rows out2 ≠ [] →
      (untruncatedFailures rows out2).take k ≠ []) := by
  refine ⟨get_series_failure_cases_some rows out2 k, List.length_take _ _, ?_, ?_⟩
  · by_cases he : failureOutputValues rows out2 = []
    · rw [he]
      simp [dropDup, dropDupAux]
    · rw [dropDup_const _ false he (failureOutputValues_all_false rows out2)]
      exact Nat.le_refl 1
  · intro hk hne
    have hfne : failureOutputValues rows out2 ≠ [] := by
      intro h0
      apply hne
      have hl := failureOutputValues_length rows out2
      rw [h0] at hl
      simp only [List.length_nil] at hl
      exact List.length_eq_zero.1 hl.symm
    have hp : dropDup (failureOutputValues rows out2) = [false] :=
      dropDup_const _ false hfne (failureOutputValues_all_false rows out2)
    rw [hp] at hk
    simp only [List.length_singleton] at hk
    refine List.ne_nil_of_length_pos ?_
    rw [List.length_take]
    have h1 : 0 < (untruncatedFailures rows out2).length := List.length_pos.2 hne
    omega

/-- C4 (counterexample): with `n_failure_cases = 1` and two failing rows, the
returned failure cases are truncated to `[5]` and no longer equal the full
list `[5, 6]` of values at false positions. -/
theorem c4_counterexample :
    (postprocess cBase (.series [Val.int 5, Val.int 6]) (.series [false, false])).map
        (fun r => r.failure_cases) = .ok (.series [Val.int 5]) ∧
    untruncatedFailures [Val.int 5, Val.int 6] [false, false]
      = [Val.int 5, Val.int 6] ∧
    FailureCases.series [Val.int 5] ≠ .series [Val.int 5, Val.int 6] :=
  ⟨rfl, rfl, by decide⟩

/-- C4 (amended): for a column object and per-row boolean output with
`ignore_na` false, and with the `n_failure_cases` bound — when configured —
at least the number of failing positions, `check_passed` is the conjunction
of the output and `failure_cases` is exactly the values at false positions in
original order. -/
theorem c4_series_failure_cases (check : BaseCheck) (s : Series) (out : List Bool)
    (hna : check.ignore_na = false) (hlen : s.length = out.length)
    (hbound : ∀ k ∈ check.n_failure_cases, (untruncatedFailures s out).length ≤ k) :
    postprocess check (.series s) (.series out)
      = .ok ⟨.series out, out.all id, .pre (.series s),
             .series (untruncatedFailures s out)⟩ := by
  have hadj : adjustSeriesOutput check s out = out := by
    rw [adjustSeriesOutput, hna]
    simp
  have hfc : get_series_failure_cases s out check.n_failure_cases
      = untruncatedFailures s out := by
    cases hk : check.n_failure_cases with
    | none => rfl
    | some k =>
        rw [get_series_failure_cases_some]
        exact List.take_of_length_le (hbound k (by rw [hk]; rfl))
  simp only [postprocess]
  rw [if_pos hlen, hadj, hfc]

/-- Witness for the amended C4 at a concrete unbounded check with two failing
rows. -/
theorem c4_witness :
    postprocess cPlain (.series [Val.int 5, Val.int 6]) (.series [false, false])
      = .ok ⟨.series [false, false], false, .pre (.series [Val.int 5, Val.int 6]),
             .series [Val.int 5, Val.int 6]⟩ :=
  c4_series_failure_cases cPlain [Val.int 5, Val.int 6] [false, false] rfl rfl
    (fun k hk => Option.noConfusion hk)

end Pandera

namespace Pandera

/-- C5: truncation law.  For each path that truncates failure cases with a
configured bound `k`: (a) a column object with per-row output, (b) a table
object with per-row output, and (c) a table object with per-cell output, the
returned failure cases are the first `k` untruncated failures, so their count
is exactly `min k m` for untruncated failure count `m`.  For the stratified
paths (a) and (b) the partitions are the distinct output values at failing
rows — of which there is at most one, since failing rows always carry a false
output — and whenever `k` is at least the partition count, a nonzero failure
count yields a nonempty sample. -/
theorem c5_truncation_law :
    (∀ (check : BaseCheck) (s : Series) (out : List Bool) (k : Nat),
      check.n_failure_cases = some k → s.length = out.length →
      ∃ r, postprocess check (.series s) (.series out) = .ok r ∧
        r.failure_cases
          = .series ((untruncatedFailures s (adjustSeriesOutput check s out)).take k) ∧
        ((untruncatedFailures s (adjustSeriesOutput check s out)).take k).length
          = min k (untruncatedFailures s (adjustSeriesOutput check s out)).length ∧
        (dropDup (failureOutputValues s (adjustSeriesOutput check s out))).length ≤ 1 ∧
        ((dropDup (failureOutputValues s (adjustSeriesOutput check s out))).length ≤ k →
          untruncatedFailures s (adjustSeriesOutput check s out) ≠ [] →
          (untruncatedFailures s (adjustSeriesOutput check s out)).take k ≠ [])) ∧
    (∀ (check : BaseCheck) (f : Frame) (out : List Bool) (k : Nat),
      check.n_failure_cases = some k → f.nrows = out.length →
      ∃ r, postprocess check (.frame f) (.series out) = .ok r ∧
        r.failure_cases
          = .rows ((untruncatedFailures f.rows (adjustFrameRowOutput check f out)).take k) ∧
        ((untruncatedFailures f.rows (adjustFrameRowOutput check f out)).take k).length
          = min k (untruncatedFailures f.rows (adjustFrameRowOutput check f out)).length ∧
        (dropDup (failureOutputValues f.rows (adjustFrameRowOutput check f out))).length
          ≤ 1 ∧
        ((dropDup (failureOutputValues f.rows (adjustFrameRowOutput check f out))).length
            ≤ k →
          untruncatedFailures f.rows (adjustFrameRowOutput check f out) ≠ [] →
          (untruncatedFailures f.rows (adjustFrameRowOutput check f out)).take k ≠ [])) ∧
    (∀ (check : BaseCheck) (f : Frame) (outf : BFrame) (k : Nat),
      check.n_failure_cases = some k → f.WF → outf.WF → f.colNames.Nodup →
      f.shape = outf.shape → f.colNames = outf.colNames →
      ∃ r, postprocess check (.frame f) (.frame outf) = .ok r ∧
        r.failure_cases = .longForm ((cellFailureEntriesRaw f.unstack
          (adjustCellOutput check f.unstack outf.unstack)).take k) ∧
        ((cellFailureEntriesRaw f.unstack
            (adjustCellOutput check f.unstack outf.unstack)).take k).length
          = min k (cellFailureEntriesRaw f.unstack
              (adjustCellOutput check f.unstack outf.unstack)).length) := by
  refine ⟨?_, ?_, ?_⟩
  · intro check s out k hk hlen
    have hparts := series_path_truncation s (adjustSeriesOutput check s out) k
    refine ⟨⟨.series (adjustSeriesOutput check s out),
             (adjustSeriesOutput check s out).all id,
             .pre (.series s),
             .series ((untruncatedFailures s (adjustSeriesOutput check s out)).take k)⟩,
            ?_, rfl, hparts.2.1, hparts.2.2.1, hparts.2.2.2⟩
    simp only [postprocess]
    rw [if_pos hlen, hk, hparts.1]
  · intro check f out k hk hlen
    have hparts := series_path_truncation f.rows (adjustFrameRowOutput check f out) k
    refine ⟨⟨.series (adjustFrameRowOutput check f out),
             (adjustFrameRowOutput check f out).all id,
             .pre (.frame f),
             .rows ((untruncatedFailures f.rows (adjustFrameRowOutput check f out)).take k)⟩,
            ?_, rfl, hparts.2.1, hparts.2.2.1, hparts.2.2.2⟩
    simp only [postprocess]
    rw [if_pos hlen, hk, hparts.1]
  · intro check f outf k hk hwf hwg hnd hs hn
    have hraw : (cellFailureEntriesRaw f.unstack
        (adjustCellOutput check f.unstack outf.unstack)).Nodup :=
      cellFailureEntriesRaw_nodup f _ hnd
    refine ⟨⟨.longSeries (adjustCellOutput check f.unstack outf.unstack),
             ((adjustCellOutput check f.unstack outf.unstack).map Prod.snd).all id,
             .long f.unstack,
             .longForm ((cellFailureEntriesRaw f.unstack
               (adjustCellOutput check f.unstack outf.unstack)).take k)⟩,
            ?_, rfl, List.length_take _ _⟩
    simp only [postprocess]
    rw [if_pos hs, if_pos hn, hk]
    have hfc : (if (cellFailureEntriesRaw f.unstack
          (adjustCellOutput check f.unstack outf.unstack)).isEmpty
        then cellFailureEntriesRaw f.unstack
          (adjustCellOutput check f.unstack outf.unstack)
        else (dropDup (cellFailureEntriesRaw f.unstack
          (adjustCellOutput check f.unstack outf.unstack))).take k)
        = (cellFailureEntriesRaw f.unstack
            (adjustCellOutput check f.unstack outf.unstack)).take k := by
      by_cases he : (cellFailureEntriesRaw f.unstack
          (adjustCellOutput check f.unstack outf.unstack)).isEmpty
      · rw [if_pos he]
        rw [List.isEmpty_iff] at he
        rw [he, List.take_nil]
      · rw [if_neg he, dropDup_eq_self _ hraw]
    dsimp only
    rw [hfc]

/-- Witness for C5 at a concrete bounded check: two failures, bound 1. -/
theorem c5_witness :
    (postprocess cBase (.series [Val.int 5, Val.int 6]) (.series [false, false])).map
      (fun r => r.failure_cases) = .ok (.series [Val.int 5]) := by
  obtain ⟨r, h1, h2, -, -, -⟩ :=
    c5_truncation_law.1 cBase [Val.int 5, Val.int 6] [false, false] 1 rfl rfl
  rw [h1]
  simp only [Except.map]
  rw [h2]
  rfl

end Pandera

namespace Pandera

/-! ### Claims C6 (amended) and C7 -/

lemma adjustSeriesOutput_length (check : BaseCheck) (s : Series) (out : List Bool)
    (h : s.length = out.length) :
    (adjustSeriesOutput check s out).length = s.length := by
  rw [adjustSeriesOutput]
  by_cases hig : check.ignore_na = true
  · rw [if_pos hig, List.length_zipWith, List.length_map]
    omega
  · rw [if_neg hig]
    omega

lemma adjustFrameRowOutput_length (check : BaseCheck) (f : Frame) (out : List Bool)
    (h : f.nrows = out.length) :
    (adjustFrameRowOutput check f out).length = f.nrows := by
  rw [adjustFrameRowOutput]
  by_cases hig : check.ignore_na = true
  · rw [if_pos hig, List.length_zipWith, Frame.isnaAnyRow, List.length_map,
      List.length_range]
    omega
  · rw [if_neg hig]
    omega

/-- C6 (amended): the stored `check_output` matches the stored object: a
boolean scalar in the scalar case; a per-row boolean series with the object's
row count in both row cases; and in the table-plus-per-cell case not a
row-by-column matrix but the column-major unstacked boolean series — aligned
key-for-key with the likewise unstacked `checked_object` and of length
rows times columns. -/
theorem c6_output_shape :
    (∀ (check : BaseCheck) (obj : PreOut) (b : Bool) (r : CheckResult),
      postprocess check obj (.scalar b) = .ok r → r.check_output = .scalar b) ∧
    (∀ (check : BaseCheck) (s : Series) (out : List Bool) (r : CheckResult),
      postprocess check (.series s) (.series out) = .ok r →
      ∃ o2, r.check_output = .series o2 ∧ o2.length = s.length) ∧
    (∀ (check : BaseCheck) (f : Frame) (out : List Bool) (r : CheckResult),
      postprocess check (.frame f) (.series out) = .ok r →
      ∃ o2, r.check_output = .series o2 ∧ o2.length = f.nrows) ∧
    (∀ (check : BaseCheck) (f : Frame) (outf : BFrame) (r : CheckResult),
      f.WF → outf.WF → f.colNames = outf.colNames → f.shape = outf.shape →
      postprocess check (.frame f) (.frame outf) = .ok r →
      ∃ o2, r.check_output = .longSeries o2 ∧
        o2.map Prod.fst = f.unstack.map Prod.fst ∧
        o2.length = f.nrows * f.cols.length ∧
        r.checked_object = .long f.unstack) := by
  refine ⟨?_, ?_, ?_, ?_⟩
  · intro check obj b r h
    cases obj <;> simp only [postprocess] at h <;>
      (injection h with h2; subst h2; rfl)
  · intro check s out r h
    simp only [postprocess] at h
    by_cases hlen : s.length = out.length
    · rw [if_pos hlen] at h
      injection h with h2
      subst h2
      exact ⟨_, rfl, adjustSeriesOutput_length check s out hlen⟩
    · rw [if_neg hlen] at h
      exact Except.noConfusion h
  · intro check f out r h
    simp only [postprocess] at h
    by_cases hlen : f.nrows = out.length
    · rw [if_pos hlen] at h
      injection h with h2
      subst h2
      exact ⟨_, rfl, adjustFrameRowOutput_length check f out hlen⟩
    · rw [if_neg hlen] at h
      exact Except.noConfusion h
  · intro check f outf r hwf hwg hn hs h
    simp only [postprocess] at h
    rw [if_pos hs, if_pos hn] at h
    injection h with h2
    subst h2
    have hlen2 : outf.unstack.length = f.unstack.length := by
      have h3 := congrArg List.length (unstack_keys_eq f outf hwf hwg hn hs)
      rw [List.length_map, List.length_map] at h3
      exact h3.symm
    have hkeys : (adjustCellOutput check f.unstack outf.unstack).map Prod.fst
        = f.unstack.map Prod.fst := by
      rw [adjustCellOutput_keys check _ _ hlen2]
      exact (unstack_keys_eq f outf hwf hwg hn hs).symm
    refine ⟨adjustCellOutput check f.unstack outf.unstack, rfl, hkeys, ?_, rfl⟩
    have h4 := congrArg List.length hkeys
    rw [List.length_map, List.length_map] at h4
    rw [h4, unstack_length f hwf]

/-- Witness for the amended C6 at a concrete scalar-output invocation. -/
theorem c6_witness : rScalarTrue.check_output = OutputField.scalar true :=
  c6_output_shape.1 cBase (.series []) true rScalarTrue rfl

/-- C7: for a table object with per-cell boolean output (matching shape and
column names, well-formed, distinct columns), the returned failure cases are
exactly the long-form (column, row, value) entries at false cells, restricted
to unique triples with exact duplicates removed (a no-op, since the (column,
row) keys are already distinct), then truncated to `n_failure_cases`. -/
theorem c7_cell_failure_cases (check : BaseCheck) (f : Frame) (outf : BFrame)
    (hwf : f.WF) (hwg : outf.WF) (hnd : f.colNames.Nodup)
    (hs : f.shape = outf.shape) (hn : f.colNames = outf.colNames) :
    ∃ r, postprocess check (.frame f) (.frame outf) = .ok r ∧
      r.failure_cases = .longForm (specCellFailures check f outf) ∧
      dropDup (cellFailureEntriesRaw f.unstack
          (adjustCellOutput check f.unstack outf.unstack))
        = cellFailureEntriesRaw f.unstack
            (adjustCellOutput check f.unstack outf.unstack) := by
  have hraw := cellFailureEntriesRaw_nodup f
    (adjustCellOutput check f.unstack outf.unstack) hnd
  have hdd := dropDup_eq_self _ hraw
  refine ⟨⟨.longSeries (adjustCellOutput check f.unstack outf.unstack),
           ((adjustCellOutput check f.unstack outf.unstack).map Prod.snd).all id,
           .long f.unstack,
           .longForm (specCellFailures check f outf)⟩, ?_, rfl, hdd⟩
  simp only [postprocess]
  rw [if_pos hs, if_pos hn]
  rw [specCellFailures, hdd]
  cases hk : check.n_failure_cases with
  | none => rfl
  | some k =>
      dsimp only [optTake]
      by_cases he : (cellFailureEntriesRaw f.unstack
          (adjustCellOutput check f.unstack outf.unstack)).isEmpty = true
      · rw [List.isEmpty_iff] at he
        rw [he, List.take_nil]
        rfl
      · rw [if_neg he]

/-- Witness for C7 at a concrete bounded check over a 2-by-2 table. -/
theorem c7_witness :
    (postprocess cBase (.frame frameAB) (.frame outAllTrue)).map
        (fun r => r.failure_cases)
      = .ok (.longForm (specCellFailures cBase frameAB outAllTrue)) := by
  obtain ⟨r, h1, h2, -⟩ := c7_cell_failure_cases cBase frameAB outAllTrue
    (by show ∀ c ∈ frameAB.cols, c.2.length = frameAB.nrows
        decide)
    (by show ∀ c ∈ outAllTrue.cols, c.2.length = outAllTrue.nrows
        decide)
    (by decide) (by decide) (by decide)
  rw [h1]
  simp only [Except.map]
  rw [h2]

end Pandera
